import Mathlib

/-!
Verification of the astronomy repository's core claims.

The shallow embedding below translates:
* the quadratic-interpolation root solver from `theory/quadratic_interpolation.ipynb`
  (`Parabola`, `Solve`);
* the differential-test comparator from `generate/ctest.c` (`DiffLine`, `Diff`);
* the sampling loop and output record structure of `AstroCheck` from `generate/ctest.c`;
* the time model, moon-quarter threading, and frame-graph algebra, which are not present
  under `src/` (only their tests and documentation are), so they are modelled from the
  specification; such definitions carry a doc comment starting `Modelled from the spec:`.
-/

namespace Astro

/-! ## TimeModel -/

/-- Modelled from the spec: the proleptic Gregorian calendar decomposition used by
`MakeTime` ("fails with InvalidDate if the calendar date does not decompose into a valid
proleptic Gregorian date/time"; "ut is the exact number of days ... implied by the
calendar fields").  Standard civil-calendar day count: number of days from 1970-01-01
to year-month-day, using floor division so the formula is valid for all years. -/
def daysFromCivil (y m d : ℤ) : ℤ :=
  let y2 : ℤ := if m ≤ 2 then y - 1 else y
  let era : ℤ := Int.fdiv y2 400
  let yoe : ℤ := y2 - era * 400
  let mp : ℤ := Int.emod (m + 9) 12
  let doy : ℤ := Int.fdiv (153 * mp + 2) 5 + d - 1
  let doe : ℤ := yoe * 365 + Int.fdiv yoe 4 - Int.fdiv yoe 100 + doy
  era * 146097 + doe - 719468

/-- The Time pair of the spec's data model: `ut` real days since 2000-01-01 12:00 UTC,
`tt` days on the uniform dynamical scale.  Polymorphic in the number field so that
claims about concrete decimal data can be settled decidably over `ℚ` while analytic
claims use `ℝ`. -/
structure astro_time_t (K : Type) where
  ut : K
  tt : K
  deriving Repr, DecidableEq

/-- Modelled from the spec: `Astronomy_MakeTime` is not under `src/` (only its unit test
`Test_AstroTime` is).  Per spec section 4.1: `ut` is the exact (fractional) number of days
from the J2000 epoch (noon, 2000-01-01) implied by the calendar fields, and
`tt = ut + deltaT(ut)/86400`.  The Delta-T model's historical table is also absent from
`src/`, so `deltaT` is a parameter (a pure function of `ut`, per the spec). -/
def MakeTime {K : Type} [Field K] (deltaT : K → K)
    (year month day hour minute : ℤ) (second : K) : astro_time_t K :=
  let u : K := ((daysFromCivil year month day - 10957 : ℤ) : K)
               + (((3600 * hour + 60 * minute : ℤ) : K) + second) / 86400 - 1/2
  ⟨u, u + deltaT u / 86400⟩

/-- Modelled from the spec: `AddDays(t, days)` "returns a new Time with `ut' = ut + days`
and `tt'` recomputed from deltaT(ut'), not simply `tt + days`" (spec section 4.1 and the
C# README's `AstroTime.AddDays`). -/
def AddDays {K : Type} [Field K] (deltaT : K → K)
    (t : astro_time_t K) (days : K) : astro_time_t K :=
  let u : K := t.ut + days
  ⟨u, u + deltaT u / 86400⟩

/-! ## RootSearch: quadratic interpolation (from `theory/quadratic_interpolation.ipynb`) -/

/-- The parabola `p(x) = Q x^2 + R x + S` of the notebook's `Parabola` class. -/
@[ext]
structure Parabola (K : Type) where
  Q : K
  R : K
  S : K

/-- The notebook's `Parabola.__init__` coefficient formulas, in terms of the three
sample values `fa = f(ta)`, `fm = f(tm)`, `fb = f(tb)`:
`Q = (fb+fa)/2 - fm`, `R = (fb-fa)/2`, `S = fm`. -/
def Parabola.ofSamples {K : Type} [Field K] (fa fm fb : K) : Parabola K :=
  ⟨(fb + fa) / 2 - fm, (fb - fa) / 2, fm⟩

/-- The notebook's `Parabola.Eval`: `Q*x*x + R*x + S`. -/
def Parabola.Eval {K : Type} [Field K] (p : Parabola K) (x : K) : K :=
  p.Q * x * x + p.R * x + p.S

/-- The notebook's `Parabola.__init__` entry point: sample `f` at `ta`, `tm`, `tb`. -/
def Parabola.ofFunc {K : Type} [Field K] (f : K → K) (ta tb : K) : Parabola K :=
  let tm := (tb + ta) / 2
  Parabola.ofSamples (f ta) (f tm) (f tb)

/-- The affine reparametrization of the notebook: `x = (t - tm)/(tb - tm)`. -/
def xFromTime {K : Type} [Field K] (tm tb t : K) : K := (t - tm) / (tb - tm)

/-- The notebook's inverse map: `t = tm + x*(tb - tm)`. -/
def timeFromX {K : Type} [Field K] (tm tb x : K) : K := tm + x * (tb - tm)

/-- The discriminant `u = R*R - 4*Q*S` of the notebook's `Solve`. -/
def Parabola.disc (p : Parabola ℝ) : ℝ := p.R * p.R - 4 * p.Q * p.S

/-- The first quadratic-formula root `x1 = (-R + sqrt u)/(2 Q)` of the notebook's `Solve`. -/
noncomputable def Parabola.root1 (p : Parabola ℝ) : ℝ :=
  (-p.R + Real.sqrt p.disc) / (2 * p.Q)

/-- The second quadratic-formula root `x2 = (-R - sqrt u)/(2 Q)` of the notebook's `Solve`. -/
noncomputable def Parabola.root2 (p : Parabola ℝ) : ℝ :=
  (-p.R - Real.sqrt p.disc) / (2 * p.Q)

/-- The acceptance interval of the notebook's `Solve`: `-1 <= x <= +1`. -/
def inRange (x : ℝ) : Prop := -1 ≤ x ∧ x ≤ 1

/-- The notebook's `Solve(p)`: the per-iteration root estimator of RootSearch.
Returns `none` ("null") when no unambiguous root estimate exists in `[-1, 1]`. -/
noncomputable def Solve (p : Parabola ℝ) : Option ℝ :=
  if p.Q = 0 then
    if p.R = 0 then none
    else
      let x := -p.S / p.R
      if -1 ≤ x ∧ x ≤ 1 then some x else none
  else
    let u := p.R * p.R - 4 * p.Q * p.S
    if u ≤ 0 then none
    else
      let ru := Real.sqrt u
      let x1 := (-p.R + ru) / (2 * p.Q)
      let x2 := (-p.R - ru) / (2 * p.Q)
      if -1 ≤ x1 ∧ x1 ≤ 1 then
        if -1 ≤ x2 ∧ x2 ≤ 1 then none else some x1
      else
        if -1 ≤ x2 ∧ x2 ≤ 1 then some x2
        else none

/-- Division instrumented to report a division by zero instead of Lean's `x / 0 = 0`
convention; used to express that `Solve` never divides by zero. -/
noncomputable def checkedDiv (a b : ℝ) : Option ℝ :=
  if b = 0 then none else some (a / b)

/-- Replay of `Solve` in which every division of the source is performed by `checkedDiv`;
the outer `Option` is `none` exactly when some division by zero was attempted. -/
noncomputable def SolveChecked (p : Parabola ℝ) : Option (Option ℝ) :=
  if p.Q = 0 then
    if p.R = 0 then some none
    else
      (checkedDiv (-p.S) p.R).map fun x =>
        if -1 ≤ x ∧ x ≤ 1 then some x else none
  else
    let u := p.R * p.R - 4 * p.Q * p.S
    if u ≤ 0 then some none
    else
      let ru := Real.sqrt u
      (checkedDiv (-p.R + ru) (2 * p.Q)).bind fun x1 =>
        (checkedDiv (-p.R - ru) (2 * p.Q)).map fun x2 =>
          if -1 ≤ x1 ∧ x1 ≤ 1 then
            if -1 ≤ x2 ∧ x2 ≤ 1 then none else some x1
          else
            if -1 ≤ x2 ∧ x2 ≤ 1 then some x2
            else none

/-- Result type of the overall `Search` (spec section 4.4): a found time, the normal
`NotFound` outcome, or the fatal iteration-cap breach. -/
inductive SearchResult where
  | found (t : ℝ)
  | notFound
  | nonConvergence

/-- Modelled from the spec: the overall `Search` of RootSearch is not under `src/`
(only its theory notebook is).  Spec section 4.4: keep a bracket `[ta, tb]`; each
iteration samples `f` at `ta`, the midpoint and `tb`, fits the parabola, asks `Solve`
for the in-range root; `none` makes the whole search return `NotFound`; otherwise map
`x` back to `t0 = tm + x*(tb - tm)`, stop when the bracket (in seconds) is within
tolerance, else shrink the bracket and repeat, with iteration cap 20 whose breach is
the fatal non-convergence outcome.  The spec does not fully determine the shrinking
policy of step 5, so it is the parameter `shrink`. -/
noncomputable def SearchLoop (f : ℝ → ℝ) (shrink : ℝ → ℝ → ℝ → ℝ × ℝ) (tol : ℝ) :
    ℕ → ℝ → ℝ → SearchResult
  | 0, _, _ => SearchResult.nonConvergence
  | Nat.succ n, ta, tb =>
    let tm := (tb + ta) / 2
    match Solve (Parabola.ofSamples (f ta) (f tm) (f tb)) with
    | none => SearchResult.notFound
    | some x =>
      let t0 := timeFromX tm tb x
      if (tb - ta) * 86400 ≤ tol then SearchResult.found t0
      else SearchLoop f shrink tol n (shrink ta tb t0).1 (shrink ta tb t0).2

/-- Modelled from the spec: `Search(f, t1, t2, tolerance_seconds)` with iteration cap 20. -/
noncomputable def Search (f : ℝ → ℝ) (shrink : ℝ → ℝ → ℝ → ℝ × ℝ)
    (t1 t2 tol : ℝ) : SearchResult :=
  SearchLoop f shrink tol 20 t1 t2

/-! ## The conformance record format and `Diff`/`DiffLine` (from `generate/ctest.c`) -/

/-- A parsed line of the conformance file format: `o lat lon height`,
`v body tt x y z`, or `s body tt ut ra dec dist az alt`. -/
inductive CRecord (α : Type) where
  | o (lat lon height : α)
  | v (body : String) (tt x y z : α)
  | s (body : String) (tt ut ra dec dist az alt : α)
  deriving DecidableEq

/-- Whether a record is a `v` (vector) record. -/
def CRecord.isV {α : Type} : CRecord α → Bool
  | CRecord.v _ _ _ _ _ => true
  | _ => false

/-- Whether a record is an `s` (sky coordinates) record. -/
def CRecord.isS {α : Type} : CRecord α → Bool
  | CRecord.s _ _ _ _ _ _ _ _ => true
  | _ => false

/-- The body name carried by a record (empty for an observer record). -/
def CRecord.name {α : Type} : CRecord α → String
  | CRecord.o _ _ _ => ""
  | CRecord.v b _ _ _ _ => b
  | CRecord.s b _ _ _ _ _ _ _ => b

/-- The running-maximum update loop of `DiffLine`
(`diff = fabs(cdata[i] - jdata[i]); if (diff > *maxdiff) *maxdiff = diff;`). -/
def foldMaxAbs (m : ℚ) : List (ℚ × ℚ) → ℚ
  | [] => m
  | (c, j) :: rest => foldMaxAbs (if |c - j| > m then |c - j| else m) rest

/-- The `DiffLine` function of `generate/ctest.c`: compares one record pair, failing (`none`) on a
record-tag mismatch or a body-name mismatch, otherwise threading the running maximum
absolute difference over the scanned numeric fields.  The scanned fields mirror the
`sscanf` formats of the source: all 3 numbers of an `o` record, the 7 numbers of an
`s` record, but only the first 3 numbers (`tt x y`) of a `v` record — the format
string `"v %9[A-Za-z] %lf %lf %lf"` contains three `%lf` conversions, so the fourth
number `z` on a `v` line is never read (`nrequired = 4` counts the body name, and the
comparison loop runs over `nrequired - 1 = 3` values). -/
def DiffLine : CRecord ℚ → CRecord ℚ → ℚ → Option ℚ
  | CRecord.o c1 c2 c3, CRecord.o j1 j2 j3, m =>
      some (foldMaxAbs m [(c1, j1), (c2, j2), (c3, j3)])
  | CRecord.v cb c1 c2 c3 _, CRecord.v jb j1 j2 j3 _, m =>
      if cb = jb then some (foldMaxAbs m [(c1, j1), (c2, j2), (c3, j3)]) else none
  | CRecord.s cb c1 c2 c3 c4 c5 c6 c7, CRecord.s jb j1 j2 j3 j4 j5 j6 j7, m =>
      if cb = jb then
        some (foldMaxAbs m [(c1, j1), (c2, j2), (c3, j3), (c4, j4), (c5, j5), (c6, j6), (c7, j7)])
      else none
  | _, _, _ => none

/-- The line loop of `Diff`: fails if the files do not have the same number of lines
or any `DiffLine` fails; otherwise returns the final maximum difference. -/
def DiffLines : List (CRecord ℚ) → List (CRecord ℚ) → ℚ → Option ℚ
  | [], [], m => some m
  | c :: cs, j :: js, m =>
    match DiffLine c j m with
    | none => none
    | some m2 => DiffLines cs js m2
  | _, _, _ => none

/-- The comparison tolerance `1.8e-12` of `Diff`. -/
def diffTolerance : ℚ := 18 / 10 ^ 13

/-- The `Diff` function of `generate/ctest.c` on parsed files: `true` exactly when the run reports
success (`error = 0`), i.e. the structure matches line-by-line and the maximum
numeric difference does not exceed `1.8e-12`. -/
def Diff (cs js : List (CRecord ℚ)) : Bool :=
  match DiffLines cs js 0 with
  | none => false
  | some m => if m > diffTolerance then false else true

/-! ## `AstroCheck` (from `generate/ctest.c`) -/

/-- The bodies of the astronomy engine used by the test harness. -/
inductive astro_body_t where
  | Sun | Mercury | Venus | Earth | Mars | Jupiter | Saturn | Uranus | Neptune | Pluto | Moon
  deriving DecidableEq, Repr

/-- Modelled from the spec: `Astronomy_BodyName` is not under `src/`; it is the
English name of each body, exactly as the names appear in the conformance records. -/
def Astronomy_BodyName : astro_body_t → String
  | astro_body_t.Sun => "Sun"
  | astro_body_t.Mercury => "Mercury"
  | astro_body_t.Venus => "Venus"
  | astro_body_t.Earth => "Earth"
  | astro_body_t.Mars => "Mars"
  | astro_body_t.Jupiter => "Jupiter"
  | astro_body_t.Saturn => "Saturn"
  | astro_body_t.Uranus => "Uranus"
  | astro_body_t.Neptune => "Neptune"
  | astro_body_t.Pluto => "Pluto"
  | astro_body_t.Moon => "Moon"

/-- The `bodylist` array of `AstroCheck`, in source order. -/
def bodylist : List astro_body_t :=
  [astro_body_t.Sun, astro_body_t.Mercury, astro_body_t.Venus, astro_body_t.Earth,
   astro_body_t.Mars, astro_body_t.Jupiter, astro_body_t.Saturn, astro_body_t.Uranus,
   astro_body_t.Neptune, astro_body_t.Pluto]

/-- The numeric payload of a `v` record: the vector's attached time (`pos.t.tt`)
and its three components, as printed by `AstroCheck`. -/
structure VData (α : Type) where
  tt : α
  x : α
  y : α
  z : α

/-- The numeric payload of an `s` record, as printed by `AstroCheck`:
`time.tt time.ut j2000.ra j2000.dec j2000.dist hor.azimuth hor.altitude`. -/
structure SData (α : Type) where
  tt : α
  ut : α
  ra : α
  dec : α
  dist : α
  az : α
  alt : α

/-- The records `AstroCheck` emits for one body at one sampled time: the heliocentric
`v` record always, then the sky-coordinate `s` record unless the body is Earth
(`if (body != BODY_EARTH)` in the source). -/
def checkBodyRecords {α : Type} (hv : astro_body_t → VData α) (sk : astro_body_t → SData α)
    (b : astro_body_t) : List (CRecord α) :=
  CRecord.v (Astronomy_BodyName b) (hv b).tt (hv b).x (hv b).y (hv b).z ::
    (if b = astro_body_t.Earth then []
     else [CRecord.s (Astronomy_BodyName b) (sk b).tt (sk b).ut (sk b).ra (sk b).dec
             (sk b).dist (sk b).az (sk b).alt])

/-- The records `AstroCheck` emits for one sampled time: the per-body records over
`bodylist`, then the geocentric Moon vector as `v GM` and its sky coordinates as
`s GM`.  The numeric payloads come from the external position providers
(`Astronomy_HelioVector`, `Astronomy_GeoVector`, `Astronomy_Equator`,
`Astronomy_Horizon`), which are abstract parameters here. -/
def checkSampleRecords {α : Type} (hv : astro_body_t → VData α)
    (sk : astro_body_t → SData α) (gm : VData α) (gs : SData α) : List (CRecord α) :=
  (bodylist.flatMap (checkBodyRecords hv sk))
  ++ [CRecord.v "GM" gm.tt gm.x gm.y gm.z,
      CRecord.s "GM" gs.tt gs.ut gs.ra gs.dec gs.dist gs.az gs.alt]

/-- The full `AstroCheck` output: first the single observer record
`o 29 -81 10` (from `Astronomy_MakeObserver(29.0, -81.0, 10.0)`), then the records of
every sampled time in order.  `times` indexes the samples of the `while` loop; the
providers are abstract per-sample data. -/
def astroCheckOutput {α ι : Type} [Field α] (times : List ι)
    (hv : ι → astro_body_t → VData α) (sk : ι → astro_body_t → SData α)
    (gm : ι → VData α) (gs : ι → SData α) : List (CRecord α) :=
  CRecord.o (29 : α) (-81) 10 ::
    times.flatMap (fun i => checkSampleRecords (hv i) (sk i) (gm i) (gs i))

/-- The `PI` macro of `generate/ctest.c`: the decimal literal
`3.14159265358979323846`, as an exact rational. -/
def ctestPI : ℚ := 314159265358979323846 / 10 ^ 20

/-- The time step of `AstroCheck`'s sampling loop: `10.0 + PI/100.0` days. -/
def astroCheckStep : ℚ := 10 + ctestPI / 100

/-- The start time of `AstroCheck`'s sampling loop: `MakeTime(1700, 1, 1, 0, 0, 0)`. -/
def astroCheckStart (deltaT : ℚ → ℚ) : astro_time_t ℚ :=
  MakeTime deltaT 1700 1 1 0 0 0

/-- The stop time of `AstroCheck`'s sampling loop: `MakeTime(2200, 1, 1, 0, 0, 0)`. -/
def astroCheckStop (deltaT : ℚ → ℚ) : astro_time_t ℚ :=
  MakeTime deltaT 2200 1 1 0 0 0

/-- The `n`-th time of `AstroCheck`'s sampling loop: start at 1700-01-01 00:00 and
advance by `Astronomy_AddDays(time, 10.0 + PI/100.0)` each iteration. -/
def astroCheckTime (deltaT : ℚ → ℚ) : ℕ → astro_time_t ℚ
  | 0 => astroCheckStart deltaT
  | Nat.succ n => AddDays deltaT (astroCheckTime deltaT n) astroCheckStep

/-! ## Moon quarters -/

/-- The moon-quarter result record: a quarter index (0 = new moon, 1 = first quarter,
2 = full moon, 3 = third quarter) and the event time. -/
structure astro_moon_quarter_t where
  quarter : ℕ
  time : ℝ

/-- Modelled from the spec: `Astronomy_NextMoonQuarter` is not under `src/` (only its
caller `MoonPhase` in `ctest.c` is).  Per spec section 4.5, it "advances the target
index mod 4 and re-searches from just after the previous event".  The forward search
for a given quarter target is the abstract parameter `searchFrom` (it finds the first
event at or after its start time), and `eps > 0` is the "just after" offset. -/
def NextMoonQuarter (searchFrom : ℕ → ℝ → ℝ) (eps : ℝ)
    (mq : astro_moon_quarter_t) : astro_moon_quarter_t :=
  ⟨(mq.quarter + 1) % 4, searchFrom ((mq.quarter + 1) % 4) (mq.time + eps)⟩

/-! ## FrameGraph rotation algebra -/

/-- A rotation matrix of the frame graph: a real 3x3 matrix. -/
abbrev RotationMatrix := Matrix (Fin 3) (Fin 3) ℝ

/-- The four orientation frames of the frame graph. -/
inductive Frame where
  | EQJ | EQD | ECL | HOR
  deriving DecidableEq, Repr

/-- Modelled from the spec: `CombineRotation(a, b)` "yields the matrix equivalent to
applying `a` then `b` (i.e., acting on a column vector as `b*(a*v)`)", so the combined
matrix is the product `b * a`. -/
def CombineRotation (a b : RotationMatrix) : RotationMatrix := b * a

/-- Modelled from the spec: `InverseRotation(r) = transpose(r)` exactly (no numeric
re-derivation), because every frame-graph matrix is orthonormal by construction. -/
def InverseRotation (r : RotationMatrix) : RotationMatrix := r.transpose

end Astro

namespace Astro

/-! ## Claim theorems -/

/-- C2: the coefficients `Q = (fb+fa)/2 - fm`, `R = (fb-fa)/2`, `S = fm` define the
unique parabola through `(-1, fa)`, `(0, fm)`, `(+1, fb)`, and `t0 = tm + x*(tb - tm)`
exactly inverts the affine reparametrization `x = (t - tm)/(tb - tm)`. -/
theorem parabola_fit_unique_and_affine_inverse (fa fm fb : ℝ) :
    (Parabola.ofSamples fa fm fb).Eval (-1) = fa
    ∧ (Parabola.ofSamples fa fm fb).Eval 0 = fm
    ∧ (Parabola.ofSamples fa fm fb).Eval 1 = fb
    ∧ (∀ q : Parabola ℝ, q.Eval (-1) = fa → q.Eval 0 = fm → q.Eval 1 = fb →
        q = Parabola.ofSamples fa fm fb)
    ∧ (∀ tm tb t : ℝ, tb ≠ tm → timeFromX tm tb (xFromTime tm tb t) = t)
    ∧ (∀ tm tb x : ℝ, tb ≠ tm → xFromTime tm tb (timeFromX tm tb x) = x) := by
  refine ⟨?_, ?_, ?_, ?_, ?_, ?_⟩
  · simp only [Parabola.ofSamples, Parabola.Eval]; ring
  · simp only [Parabola.ofSamples, Parabola.Eval]; ring
  · simp only [Parabola.ofSamples, Parabola.Eval]; ring
  · intro q h1 h2 h3
    simp only [Parabola.Eval] at h1 h2 h3
    ext
    · show q.Q = (fb + fa) / 2 - fm
      nlinarith [h1, h2, h3]
    · show q.R = (fb - fa) / 2
      nlinarith [h1, h2, h3]
    · show q.S = fm
      nlinarith [h1, h2, h3]
  · intro tm tb t h
    have hne : tb - tm ≠ 0 := sub_ne_zero_of_ne h
    simp only [timeFromX, xFromTime]
    field_simp
  · intro tm tb x h
    have hne : tb - tm ≠ 0 := sub_ne_zero_of_ne h
    simp only [timeFromX, xFromTime]
    field_simp

/-- Witness for C2: the uniqueness and both inversion directions at concrete inputs. -/
theorem parabola_fit_unique_and_affine_inverse_witness :
    (⟨0, 0, 0⟩ : Parabola ℝ) = Parabola.ofSamples 0 0 0
    ∧ timeFromX (0 : ℝ) 2 (xFromTime 0 2 1) = 1
    ∧ xFromTime (0 : ℝ) 2 (timeFromX 0 2 1) = 1 := by
  refine ⟨?_, ?_, ?_⟩
  · exact (parabola_fit_unique_and_affine_inverse 0 0 0).2.2.2.1 ⟨0, 0, 0⟩
      (by simp [Parabola.Eval]) (by simp [Parabola.Eval]) (by simp [Parabola.Eval])
  · exact (parabola_fit_unique_and_affine_inverse 0 0 0).2.2.2.2.1 0 2 1 (by norm_num)
  · exact (parabola_fit_unique_and_affine_inverse 0 0 0).2.2.2.2.2 0 2 1 (by norm_num)

/-- C7: if every frame-graph matrix is orthonormal and the reverse-direction matrix
is the inverse, then composing a rotation with its reverse yields the identity, and
`InverseRotation` is exactly the transpose. -/
theorem rotation_roundtrip_identity_and_inverse_is_transpose
    (rot : Frame → Frame → RotationMatrix)
    (horth : ∀ A B, rot A B * (rot A B).transpose = 1)
    (hrev : ∀ A B, rot B A = InverseRotation (rot A B)) (A B : Frame) :
    CombineRotation (rot A B) (rot B A) = 1
    ∧ InverseRotation (rot A B) = (rot A B).transpose := by
  constructor
  · rw [CombineRotation, hrev A B, InverseRotation]
    exact Matrix.mul_eq_one_comm.mp (horth A B)
  · rfl

/-- Witness for C7: the constant identity assignment satisfies both hypotheses. -/
theorem rotation_roundtrip_identity_witness :
    CombineRotation ((fun _ _ => (1 : RotationMatrix)) Frame.EQJ Frame.HOR)
        ((fun _ _ => (1 : RotationMatrix)) Frame.HOR Frame.EQJ) = 1
    ∧ InverseRotation ((fun _ _ => (1 : RotationMatrix)) Frame.EQJ Frame.HOR)
        = ((fun _ _ => (1 : RotationMatrix)) Frame.EQJ Frame.HOR).transpose := by
  exact rotation_roundtrip_identity_and_inverse_is_transpose (fun _ _ => 1)
    (fun _ _ => by simp) (fun _ _ => by simp [InverseRotation]) Frame.EQJ Frame.HOR

/-- C8: `AddDays(t, 0) = t` for every `t` satisfying the Time invariant
`tt = ut + deltaT(ut)/86400`; `AddDays(t, days)` has `ut' = ut + days` and `tt'`
recomputed from the Delta-T model at `ut'`, which in general differs from
`tt + days` (shown at a concrete varying Delta-T model). -/
theorem adddays_identity_and_recomputes_tt (deltaT : ℝ → ℝ) (t : astro_time_t ℝ)
    (days : ℝ) (hinv : t.tt = t.ut + deltaT t.ut / 86400) :
    AddDays deltaT t 0 = t
    ∧ (AddDays deltaT t days).ut = t.ut + days
    ∧ (AddDays deltaT t days).tt = (t.ut + days) + deltaT (t.ut + days) / 86400
    ∧ (AddDays (fun u => u) ⟨0, 0⟩ 86400).tt ≠ (0 : ℝ) + 86400 := by
  obtain ⟨u, w⟩ := t
  simp only [AddDays] at hinv ⊢
  refine ⟨?_, trivial, trivial, ?_⟩
  · simp only [add_zero]
    exact congrArg (astro_time_t.mk u) hinv.symm
  · show (0 : ℝ) + 86400 + ((0 : ℝ) + 86400) / 86400 ≠ (0 : ℝ) + 86400
    norm_num

/-- Witness for C8: the invariant hypothesis discharged at a concrete Time. -/
theorem adddays_identity_witness :
    AddDays (fun _ => (0 : ℝ)) ⟨1, 1⟩ 0 = ⟨1, 1⟩
    ∧ (AddDays (fun _ => (0 : ℝ)) ⟨1, 1⟩ 3).ut = 1 + 3 := by
  have h := adddays_identity_and_recomputes_tt (fun _ => (0 : ℝ)) ⟨1, 1⟩ 3 (by norm_num)
  exact ⟨h.1, h.2.1⟩

/-- C6: `NextMoonQuarter` advances the quarter index mod 4 with a strictly later time;
iterating cycles the quarters 0,1,2,3,0,... with strictly increasing times, provided
the abstract forward search returns a time no earlier than its start. -/
theorem nextmoonquarter_cycles (searchFrom : ℕ → ℝ → ℝ) (eps : ℝ)
    (heps : 0 < eps) (hsearch : ∀ q s, s ≤ searchFrom q s)
    (mq : astro_moon_quarter_t) (hq : mq.quarter < 4) :
    (NextMoonQuarter searchFrom eps mq).quarter = (mq.quarter + 1) % 4
    ∧ mq.time < (NextMoonQuarter searchFrom eps mq).time
    ∧ (∀ n : ℕ, ((NextMoonQuarter searchFrom eps)^[n] mq).quarter = (mq.quarter + n) % 4)
    ∧ (∀ m n : ℕ, m < n →
        ((NextMoonQuarter searchFrom eps)^[m] mq).time
          < ((NextMoonQuarter searchFrom eps)^[n] mq).time) := by
  have hstep : ∀ x : astro_moon_quarter_t, x.time < (NextMoonQuarter searchFrom eps x).time := by
    intro x
    calc x.time < x.time + eps := by linarith
    _ ≤ searchFrom ((x.quarter + 1) % 4) (x.time + eps) := hsearch _ _
  refine ⟨rfl, hstep mq, ?_, ?_⟩
  · intro n
    induction n with
    | zero => simpa using (Nat.mod_eq_of_lt hq).symm
    | succ k ih =>
      rw [Function.iterate_succ_apply']
      show (((NextMoonQuarter searchFrom eps)^[k] mq).quarter + 1) % 4 = (mq.quarter + (k + 1)) % 4
      rw [ih]
      omega
  · intro m n hmn
    have : StrictMono fun k : ℕ => (((NextMoonQuarter searchFrom eps)^[k]) mq).time := by
      apply strictMono_nat_of_lt_succ
      intro k
      rw [Function.iterate_succ_apply']
      exact hstep _
    exact this hmn

/-- Witness for C6: all hypotheses discharged with a concrete search and quarter. -/
theorem nextmoonquarter_cycles_witness :
    (NextMoonQuarter (fun _ s => s) 1 ⟨0, 0⟩).quarter = 1
    ∧ (0 : ℝ) < (NextMoonQuarter (fun _ s => s) 1 ⟨0, 0⟩).time := by
  have h := nextmoonquarter_cycles (fun _ s => s) 1 (by norm_num) (fun _ _ => le_refl _)
    ⟨0, 0⟩ (by norm_num)
  exact ⟨h.1, h.2.1⟩

/-- C4: under the spec's time model (calendar fields to exact days since J2000, and
`tt = ut + deltaT(ut)/86400` with the Delta-T value at the tested date supplied by
hypothesis, since the Delta-T table is not under `src/`),
`MakeTime(2018, 12, 2, 18, 30, 12.543)` yields `ut = 6910.270978506945` and
`tt = 6910.271779431480`, each to within `1e-12`. -/
theorem maketime_test_astro_time (deltaT : ℚ → ℚ)
    (h : deltaT ((MakeTime deltaT 2018 12 2 18 30 (12543/1000)).ut)
          = 86400 * (6910271779431480 / 10 ^ 12
              - (MakeTime deltaT 2018 12 2 18 30 (12543/1000)).ut)) :
    |(MakeTime deltaT 2018 12 2 18 30 (12543/1000)).ut - 6910270978506945 / 10 ^ 12|
        ≤ 1 / 10 ^ 12
    ∧ |(MakeTime deltaT 2018 12 2 18 30 (12543/1000)).tt - 6910271779431480 / 10 ^ 12|
        ≤ 1 / 10 ^ 12 := by
  have hu : (MakeTime deltaT 2018 12 2 18 30 (12543/1000)).ut
      = 199015804181 / 28800000 := by
    simp only [MakeTime]
    rw [show daysFromCivil 2018 12 2 = 17867 by decide]
    norm_num
  have ht : (MakeTime deltaT 2018 12 2 18 30 (12543/1000)).tt
      = (MakeTime deltaT 2018 12 2 18 30 (12543/1000)).ut
        + deltaT ((MakeTime deltaT 2018 12 2 18 30 (12543/1000)).ut) / 86400 := rfl
  rw [ht, h, hu]
  constructor
  · rw [abs_le]
    constructor <;> norm_num
  · rw [abs_le]
    constructor <;> norm_num

/-- Witness for C4: the Delta-T hypothesis discharged by a concrete constant model. -/
theorem maketime_test_astro_time_witness :
    |(MakeTime (fun _ : ℚ => 86400 * (6910271779431480 / 10 ^ 12 - 199015804181 / 28800000))
        2018 12 2 18 30 (12543/1000)).ut - 6910270978506945 / 10 ^ 12| ≤ 1 / 10 ^ 12
    ∧ |(MakeTime (fun _ : ℚ => 86400 * (6910271779431480 / 10 ^ 12 - 199015804181 / 28800000))
        2018 12 2 18 30 (12543/1000)).tt - 6910271779431480 / 10 ^ 12| ≤ 1 / 10 ^ 12 := by
  apply maketime_test_astro_time
  simp only [MakeTime]
  rw [show daysFromCivil 2018 12 2 = 17867 by decide]
  norm_num

/-- C9: the `AstroCheck` sampling loop starts at `MakeTime(1700,1,1,0,0,0)`, each
iteration advances `ut` by exactly `10 + PI/100` days, and whenever the loop guard
`time.tt < stop.tt` admits a sample, that sample's `tt` lies inside the supported
window `[start.tt, stop.tt)` — so the time handed to the position providers never
leaves the 1700–2200 model window.  The spec's Time invariant (`tt` a monotonic
function of `ut`) is the hypothesis `hM`. -/
theorem astrocheck_samples_in_model_window (deltaT : ℚ → ℚ)
    (hM : Monotone fun u : ℚ => u + deltaT u / 86400) (n : ℕ) :
    (astroCheckTime deltaT n).ut = (astroCheckStart deltaT).ut + n * astroCheckStep
    ∧ ((astroCheckTime deltaT n).tt < (astroCheckStop deltaT).tt →
        (astroCheckStart deltaT).tt ≤ (astroCheckTime deltaT n).tt
        ∧ (astroCheckTime deltaT n).tt < (astroCheckStop deltaT).tt) := by
  have hstep : (0 : ℚ) < astroCheckStep := by norm_num [astroCheckStep, ctestPI]
  have hut : ∀ m : ℕ, (astroCheckTime deltaT m).ut
      = (astroCheckStart deltaT).ut + m * astroCheckStep := by
    intro m
    induction m with
    | zero => simp [astroCheckTime]
    | succ k ih =>
      have hk : (astroCheckTime deltaT (k + 1)).ut
          = (astroCheckTime deltaT k).ut + astroCheckStep := rfl
      rw [hk, ih]
      push_cast
      ring
  have htt : ∀ m : ℕ, (astroCheckTime deltaT m).tt
      = (astroCheckTime deltaT m).ut + deltaT ((astroCheckTime deltaT m).ut) / 86400 := by
    intro m
    cases m with
    | zero => rfl
    | succ k => rfl
  refine ⟨hut n, fun hlt => ⟨?_, hlt⟩⟩
  have hle : (astroCheckStart deltaT).ut ≤ (astroCheckTime deltaT n).ut := by
    rw [hut n]
    have hnn : (0 : ℚ) ≤ (n : ℚ) * astroCheckStep := by positivity
    linarith
  have h0 : (astroCheckStart deltaT).tt
      = (astroCheckStart deltaT).ut + deltaT ((astroCheckStart deltaT).ut) / 86400 := rfl
  rw [h0, htt n]
  exact hM hle

/-- Witness for C9: monotonicity and the loop guard discharged concretely. -/
theorem astrocheck_samples_in_model_window_witness :
    (astroCheckTime (fun _ => 0) 0).ut
      = (astroCheckStart (fun _ => 0)).ut + (0 : ℕ) * astroCheckStep
    ∧ ((astroCheckStart (fun _ => 0)).tt ≤ (astroCheckTime (fun _ => 0) 0).tt
        ∧ (astroCheckTime (fun _ => 0) 0).tt < (astroCheckStop (fun _ => 0)).tt) := by
  have h := astrocheck_samples_in_model_window (fun _ => 0)
    (by intro a b hab; simpa using hab) 0
  refine ⟨h.1, h.2 ?_⟩
  show (astroCheckStart (fun _ => 0)).tt < (astroCheckStop (fun _ => 0)).tt
  simp only [astroCheckStart, astroCheckStop, MakeTime]
  rw [show daysFromCivil 1700 1 1 = -98615 by decide,
      show daysFromCivil 2200 1 1 = 84006 by decide]
  norm_num

/-- C3 (failing input for the code bug): `Diff` reports success on two `v` records
that differ only in their fourth numeric field `z` by far more than the `1.8e-12`
tolerance, because `DiffLine`'s `sscanf` format for a `v` record scans only three
numbers; a difference in the third field `y` is, by contrast, detected. -/
theorem diff_skips_v_record_z_field :
    Diff [CRecord.v "Sun" 1 2 3 4] [CRecord.v "Sun" 1 2 3 999] = true
    ∧ Diff [CRecord.v "Sun" 1 2 3 4] [CRecord.v "Sun" 1 2 999 4] = false := by
  have h1 : DiffLine (CRecord.v "Sun" 1 2 3 4) (CRecord.v "Sun" 1 2 3 999) 0 = some 0 := by
    norm_num [DiffLine, foldMaxAbs]
  have h2 : DiffLine (CRecord.v "Sun" 1 2 3 4) (CRecord.v "Sun" 1 2 999 4) 0 = some 996 := by
    norm_num [DiffLine, foldMaxAbs]
  constructor
  · rw [Diff, DiffLines, h1]
    norm_num [DiffLines, diffTolerance]
  · rw [Diff, DiffLines, h2]
    norm_num [DiffLines, diffTolerance]

/-- C10: the conformance output of `AstroCheck` begins with the single observer
record; each sampled time contributes a `v` record for each of the ten listed bodies
(Earth included) plus the geocentric Moon record `v GM`, while `s` records appear
exactly for the nine non-Earth bodies and for the Moon as `s GM`; Earth never
appears in an `s` record. -/
theorem astrocheck_output_structure {α ι : Type} [Field α] (times : List ι)
    (hv : ι → astro_body_t → VData α) (sk : ι → astro_body_t → SData α)
    (gm : ι → VData α) (gs : ι → SData α) :
    (astroCheckOutput times hv sk gm gs).head? = some (CRecord.o 29 (-81) 10)
    ∧ (∀ i : ι,
        ((checkSampleRecords (hv i) (sk i) (gm i) (gs i)).filter CRecord.isV).map CRecord.name
          = ["Sun", "Mercury", "Venus", "Earth", "Mars", "Jupiter", "Saturn",
             "Uranus", "Neptune", "Pluto", "GM"]
        ∧ ((checkSampleRecords (hv i) (sk i) (gm i) (gs i)).filter CRecord.isS).map CRecord.name
          = ["Sun", "Mercury", "Venus", "Mars", "Jupiter", "Saturn",
             "Uranus", "Neptune", "Pluto", "GM"])
    ∧ (∀ r ∈ astroCheckOutput times hv sk gm gs, r.isS = true → r.name ≠ "Earth") := by
  have hsample : ∀ (hv1 : astro_body_t → VData α) (sk1 : astro_body_t → SData α)
      (gm1 : VData α) (gs1 : SData α),
      checkSampleRecords hv1 sk1 gm1 gs1
        = [CRecord.v "Sun" (hv1 astro_body_t.Sun).tt (hv1 astro_body_t.Sun).x
             (hv1 astro_body_t.Sun).y (hv1 astro_body_t.Sun).z,
           CRecord.s "Sun" (sk1 astro_body_t.Sun).tt (sk1 astro_body_t.Sun).ut
             (sk1 astro_body_t.Sun).ra (sk1 astro_body_t.Sun).dec (sk1 astro_body_t.Sun).dist
             (sk1 astro_body_t.Sun).az (sk1 astro_body_t.Sun).alt,
           CRecord.v "Mercury" (hv1 astro_body_t.Mercury).tt (hv1 astro_body_t.Mercury).x
             (hv1 astro_body_t.Mercury).y (hv1 astro_body_t.Mercury).z,
           CRecord.s "Mercury" (sk1 astro_body_t.Mercury).tt (sk1 astro_body_t.Mercury).ut
             (sk1 astro_body_t.Mercury).ra (sk1 astro_body_t.Mercury).dec
             (sk1 astro_body_t.Mercury).dist (sk1 astro_body_t.Mercury).az
             (sk1 astro_body_t.Mercury).alt,
           CRecord.v "Venus" (hv1 astro_body_t.Venus).tt (hv1 astro_body_t.Venus).x
             (hv1 astro_body_t.Venus).y (hv1 astro_body_t.Venus).z,
           CRecord.s "Venus" (sk1 astro_body_t.Venus).tt (sk1 astro_body_t.Venus).ut
             (sk1 astro_body_t.Venus).ra (sk1 astro_body_t.Venus).dec
             (sk1 astro_body_t.Venus).dist (sk1 astro_body_t.Venus).az
             (sk1 astro_body_t.Venus).alt,
           CRecord.v "Earth" (hv1 astro_body_t.Earth).tt (hv1 astro_body_t.Earth).x
             (hv1 astro_body_t.Earth).y (hv1 astro_body_t.Earth).z,
           CRecord.v "Mars" (hv1 astro_body_t.Mars).tt (hv1 astro_body_t.Mars).x
             (hv1 astro_body_t.Mars).y (hv1 astro_body_t.Mars).z,
           CRecord.s "Mars" (sk1 astro_body_t.Mars).tt (sk1 astro_body_t.Mars).ut
             (sk1 astro_body_t.Mars).ra (sk1 astro_body_t.Mars).dec (sk1 astro_body_t.Mars).dist
             (sk1 astro_body_t.Mars).az (sk1 astro_body_t.Mars).alt,
           CRecord.v "Jupiter" (hv1 astro_body_t.Jupiter).tt (hv1 astro_body_t.Jupiter).x
             (hv1 astro_body_t.Jupiter).y (hv1 astro_body_t.Jupiter).z,
           CRecord.s "Jupiter" (sk1 astro_body_t.Jupiter).tt (sk1 astro_body_t.Jupiter).ut
             (sk1 astro_body_t.Jupiter).ra (sk1 astro_body_t.Jupiter).dec
             (sk1 astro_body_t.Jupiter).dist (sk1 astro_body_t.Jupiter).az
             (sk1 astro_body_t.Jupiter).alt,
           CRecord.v "Saturn" (hv1 astro_body_t.Saturn).tt (hv1 astro_body_t.Saturn).x
             (hv1 astro_body_t.Saturn).y (hv1 astro_body_t.Saturn).z,
           CRecord.s "Saturn" (sk1 astro_body_t.Saturn).tt (sk1 astro_body_t.Saturn).ut
             (sk1 astro_body_t.Saturn).ra (sk1 astro_body_t.Saturn).dec
             (sk1 astro_body_t.Saturn).dist (sk1 astro_body_t.Saturn).az
             (sk1 astro_body_t.Saturn).alt,
           CRecord.v "Uranus" (hv1 astro_body_t.Uranus).tt (hv1 astro_body_t.Uranus).x
             (hv1 astro_body_t.Uranus).y (hv1 astro_body_t.Uranus).z,
           CRecord.s "Uranus" (sk1 astro_body_t.Uranus).tt (sk1 astro_body_t.Uranus).ut
             (sk1 astro_body_t.Uranus).ra (sk1 astro_body_t.Uranus).dec
             (sk1 astro_body_t.Uranus).dist (sk1 astro_body_t.Uranus).az
             (sk1 astro_body_t.Uranus).alt,
           CRecord.v "Neptune" (hv1 astro_body_t.Neptune).tt (hv1 astro_body_t.Neptune).x
             (hv1 astro_body_t.Neptune).y (hv1 astro_body_t.Neptune).z,
           CRecord.s "Neptune" (sk1 astro_body_t.Neptune).tt (sk1 astro_body_t.Neptune).ut
             (sk1 astro_body_t.Neptune).ra (sk1 astro_body_t.Neptune).dec
             (sk1 astro_body_t.Neptune).dist (sk1 astro_body_t.Neptune).az
             (sk1 astro_body_t.Neptune).alt,
           CRecord.v "Pluto" (hv1 astro_body_t.Pluto).tt (hv1 astro_body_t.Pluto).x
             (hv1 astro_body_t.Pluto).y (hv1 astro_body_t.Pluto).z,
           CRecord.s "Pluto" (sk1 astro_body_t.Pluto).tt (sk1 astro_body_t.Pluto).ut
             (sk1 astro_body_t.Pluto).ra (sk1 astro_body_t.Pluto).dec
             (sk1 astro_body_t.Pluto).dist (sk1 astro_body_t.Pluto).az
             (sk1 astro_body_t.Pluto).alt,
           CRecord.v "GM" gm1.tt gm1.x gm1.y gm1.z,
           CRecord.s "GM" gs1.tt gs1.ut gs1.ra gs1.dec gs1.dist gs1.az gs1.alt] := by
    intro hv1 sk1 gm1 gs1
    simp [checkSampleRecords, checkBodyRecords, bodylist, Astronomy_BodyName]
  refine ⟨rfl, ?_, ?_⟩
  · intro i
    rw [hsample (hv i) (sk i) (gm i) (gs i)]
    constructor
    · simp [CRecord.isV, CRecord.name, List.filter, List.map]
    · simp [CRecord.isS, CRecord.name, List.filter, List.map]
  · intro r hr hs
    rcases List.mem_cons.mp hr with hcase | hcase
    · subst hcase
      simp [CRecord.isS] at hs
    · obtain ⟨i, -, hmem⟩ := List.mem_flatMap.mp hcase
      rw [hsample (hv i) (sk i) (gm i) (gs i)] at hmem
      intro hEarth
      simp only [List.mem_cons, List.not_mem_nil, or_false] at hmem
      rcases hmem with rfl | rfl | rfl | rfl | rfl | rfl | rfl | rfl | rfl | rfl | rfl | rfl
        | rfl | rfl | rfl | rfl | rfl | rfl | rfl | rfl | rfl <;>
        simp_all [CRecord.isS, CRecord.name]

/-- Witness for C10: the record-structure facts instantiated at a concrete sample,
with the membership and tag hypotheses of the Earth conjunct discharged concretely. -/
theorem astrocheck_output_structure_witness :
    (astroCheckOutput (α := ℚ) [()] (fun _ _ => ⟨0, 0, 0, 0⟩)
        (fun _ _ => ⟨0, 0, 0, 0, 0, 0, 0⟩) (fun _ => ⟨0, 0, 0, 0⟩)
        (fun _ => ⟨0, 0, 0, 0, 0, 0, 0⟩)).head? = some (CRecord.o 29 (-81) 10)
    ∧ (CRecord.s "GM" (0:ℚ) 0 0 0 0 0 0).name ≠ "Earth" := by
  have h := astrocheck_output_structure (α := ℚ) [()] (fun _ _ => ⟨0, 0, 0, 0⟩)
    (fun _ _ => ⟨0, 0, 0, 0, 0, 0, 0⟩) (fun _ => ⟨0, 0, 0, 0⟩)
    (fun _ => ⟨0, 0, 0, 0, 0, 0, 0⟩)
  refine ⟨h.1, ?_⟩
  apply h.2.2 (CRecord.s "GM" 0 0 0 0 0 0 0)
  · simp [astroCheckOutput, checkSampleRecords, checkBodyRecords, bodylist,
      Astronomy_BodyName]
  · rfl

/-- Helper: the per-iteration solver reports no solution whenever all three samples
are equal (then `Q = 0` and `R = 0`, the degenerate-line branch with zero slope). -/
theorem solve_constant_samples (c : ℝ) : Solve (Parabola.ofSamples c c c) = none := by
  have h0 : Parabola.ofSamples c c c = ⟨0, 0, c⟩ := by
    simp only [Parabola.ofSamples, Parabola.mk.injEq]
    refine ⟨by ring, by ring, trivial⟩
  rw [h0]
  simp [Solve]

/-- Helper: the overall `Search` returns `NotFound` as soon as its first iteration
samples three equal values, independently of the shrinking policy and tolerance. -/
theorem search_notFound_of_constant_samples (f : ℝ → ℝ)
    (shrink : ℝ → ℝ → ℝ → ℝ × ℝ) (t1 t2 tol c : ℝ)
    (hfa : f t1 = c) (hfm : f ((t2 + t1) / 2) = c) (hfb : f t2 = c) :
    Search f shrink t1 t2 tol = SearchResult.notFound := by
  show SearchLoop f shrink tol (Nat.succ 19) t1 t2 = SearchResult.notFound
  simp only [SearchLoop, hfa, hfm, hfb, solve_constant_samples]

/-- C5: the per-iteration solver is total and never divides by zero — its
division-instrumented replay always succeeds and agrees with `Solve` — and in the
degenerate line case (`Q = 0`) an estimate is produced only as `-S/R` with `R`
nonzero and only when it lies in `[-1, 1]`. -/
theorem solve_total_and_guarded_divisions (p : Parabola ℝ) :
    SolveChecked p = some (Solve p)
    ∧ ∀ x : ℝ, p.Q = 0 → Solve p = some x → p.R ≠ 0 ∧ x = -p.S / p.R ∧ inRange x := by
  constructor
  · by_cases hQ : p.Q = 0
    · by_cases hR : p.R = 0
      · simp [Solve, SolveChecked, hQ, hR]
      · simp [Solve, SolveChecked, hQ, hR, checkedDiv]
    · by_cases hu : p.R * p.R - 4 * p.Q * p.S ≤ 0
      · simp [Solve, SolveChecked, hQ, hu]
      · have h2Q : 2 * p.Q ≠ 0 := by
          intro hcon
          exact hQ (by linarith [hcon])
        simp [Solve, SolveChecked, hQ, hu, checkedDiv, h2Q]
  · intro x hQ hx
    by_cases hR : p.R = 0
    · simp [Solve, hQ, hR] at hx
    · simp only [Solve, hQ, if_pos, hR, if_neg, if_false, ite_false, eq_self_iff_true,
        if_true, ite_true] at hx
      split_ifs at hx with hin
      obtain rfl := (Option.some.inj hx).symm
      exact ⟨hR, rfl, hin⟩

/-- Witness for C5: the degenerate-line hypotheses discharged at `Q = 0`, `R = 1`,
`S = 1/2`, where the solver returns `x = -1/2`. -/
theorem solve_total_and_guarded_divisions_witness :
    SolveChecked ⟨0, 1, 1/2⟩ = some (Solve ⟨0, 1, 1/2⟩)
    ∧ ((1 : ℝ) ≠ 0 ∧ (-(1/2) : ℝ) = -(1/2) / 1 ∧ inRange (-(1/2))) := by
  have h := solve_total_and_guarded_divisions ⟨0, 1, 1/2⟩
  have hsolve : Solve ⟨0, 1, 1/2⟩ = some (-(1/2)) := by
    simp only [Solve]
    rw [if_pos trivial]
    rw [if_neg (by norm_num : ¬((1:ℝ) = 0))]
    rw [if_pos (by constructor <;> norm_num)]
    norm_num
  exact ⟨h.1, h.2 (-(1/2)) rfl hsolve⟩

/-- C1: with `Q` nonzero, the per-iteration solver returns a root only when the
discriminant is strictly positive and exactly one quadratic-formula root lies in
`[-1, 1]`; it returns no solution when the discriminant is nonpositive or when zero
or both roots are in range; and the overall `Search` returns `NotFound` (not an
error) on the spec's synthetic two-crossing function
`sin(4 pi (t - ta)/(tb - ta))` and on a crossing-free constant function,
independently of the bracket-shrinking policy. -/
theorem solve_returns_unique_in_range_root (p : Parabola ℝ) (hQ : p.Q ≠ 0) :
    (∀ x : ℝ, Solve p = some x →
        0 < p.disc
        ∧ ((inRange p.root1 ∧ ¬ inRange p.root2 ∧ x = p.root1)
            ∨ (inRange p.root2 ∧ ¬ inRange p.root1 ∧ x = p.root2)))
    ∧ (p.disc ≤ 0 → Solve p = none)
    ∧ ((inRange p.root1 ↔ inRange p.root2) → Solve p = none)
    ∧ (∀ (shrink : ℝ → ℝ → ℝ → ℝ × ℝ) (ta tb tol : ℝ),
        Search (fun t => Real.sin (4 * Real.pi * (t - ta) / (tb - ta))) shrink ta tb tol
          = SearchResult.notFound
        ∧ Search (fun _ => (1 : ℝ)) shrink ta tb tol = SearchResult.notFound) := by
  refine ⟨?_, ?_, ?_, ?_⟩
  · intro x hx
    simp only [Solve] at hx
    rw [if_neg hQ] at hx
    by_cases hu : p.R * p.R - 4 * p.Q * p.S ≤ 0
    · rw [if_pos hu] at hx
      exact Option.noConfusion hx
    · rw [if_neg hu] at hx
      refine ⟨not_le.mp hu, ?_⟩
      by_cases h1 : -1 ≤ (-p.R + Real.sqrt (p.R * p.R - 4 * p.Q * p.S)) / (2 * p.Q)
          ∧ (-p.R + Real.sqrt (p.R * p.R - 4 * p.Q * p.S)) / (2 * p.Q) ≤ 1
      · rw [if_pos h1] at hx
        by_cases h2 : -1 ≤ (-p.R - Real.sqrt (p.R * p.R - 4 * p.Q * p.S)) / (2 * p.Q)
            ∧ (-p.R - Real.sqrt (p.R * p.R - 4 * p.Q * p.S)) / (2 * p.Q) ≤ 1
        · rw [if_pos h2] at hx
          exact Option.noConfusion hx
        · rw [if_neg h2] at hx
          exact Or.inl ⟨h1, h2, (Option.some.inj hx).symm⟩
      · rw [if_neg h1] at hx
        by_cases h2 : -1 ≤ (-p.R - Real.sqrt (p.R * p.R - 4 * p.Q * p.S)) / (2 * p.Q)
            ∧ (-p.R - Real.sqrt (p.R * p.R - 4 * p.Q * p.S)) / (2 * p.Q) ≤ 1
        · rw [if_pos h2] at hx
          exact Or.inr ⟨h2, h1, (Option.some.inj hx).symm⟩
        · rw [if_neg h2] at hx
          exact Option.noConfusion hx
  · intro hd
    simp only [Solve]
    rw [if_neg hQ]
    rw [if_pos (show p.R * p.R - 4 * p.Q * p.S ≤ 0 from hd)]
  · intro hiff
    simp only [Solve]
    rw [if_neg hQ]
    by_cases hu : p.R * p.R - 4 * p.Q * p.S ≤ 0
    · rw [if_pos hu]
    · rw [if_neg hu]
      by_cases h1 : -1 ≤ (-p.R + Real.sqrt (p.R * p.R - 4 * p.Q * p.S)) / (2 * p.Q)
          ∧ (-p.R + Real.sqrt (p.R * p.R - 4 * p.Q * p.S)) / (2 * p.Q) ≤ 1
      · rw [if_pos h1]
        rw [if_pos (show -1 ≤ (-p.R - Real.sqrt (p.R * p.R - 4 * p.Q * p.S)) / (2 * p.Q)
            ∧ (-p.R - Real.sqrt (p.R * p.R - 4 * p.Q * p.S)) / (2 * p.Q) ≤ 1
          from hiff.mp h1)]
      · rw [if_neg h1]
        rw [if_neg (show ¬(-1 ≤ (-p.R - Real.sqrt (p.R * p.R - 4 * p.Q * p.S)) / (2 * p.Q)
            ∧ (-p.R - Real.sqrt (p.R * p.R - 4 * p.Q * p.S)) / (2 * p.Q) ≤ 1)
          from fun h2 => h1 (hiff.mpr h2))]
  · intro shrink ta tb tol
    constructor
    · refine search_notFound_of_constant_samples _ shrink ta tb tol 0 ?_ ?_ ?_
      · show Real.sin (4 * Real.pi * (ta - ta) / (tb - ta)) = 0
        simp
      · show Real.sin (4 * Real.pi * ((tb + ta) / 2 - ta) / (tb - ta)) = 0
        rcases eq_or_ne tb ta with h | h
        · simp [h]
        · have hne : tb - ta ≠ 0 := sub_ne_zero_of_ne h
          have harg : 4 * Real.pi * ((tb + ta) / 2 - ta) / (tb - ta) = 2 * Real.pi := by
            field_simp
            ring
          rw [harg, Real.sin_two_pi]
      · show Real.sin (4 * Real.pi * (tb - ta) / (tb - ta)) = 0
        rcases eq_or_ne tb ta with h | h
        · simp [h]
        · have hne : tb - ta ≠ 0 := sub_ne_zero_of_ne h
          have harg : 4 * Real.pi * (tb - ta) / (tb - ta) = 4 * Real.pi := by
            rw [mul_div_assoc, div_self hne, mul_one]
          have h4 : (4 : ℝ) * Real.pi = (4 : ℕ) * Real.pi := by norm_num
          rw [harg, h4, Real.sin_nat_mul_pi]
    · exact search_notFound_of_constant_samples _ shrink ta tb tol 1 rfl rfl rfl

/-- Witness for C1: at `Q = 1`, `R = -5/2`, `S = 1` the discriminant is `9/4`, the
roots are `2` (out of range) and `1/2` (in range), and the solver returns `1/2`. -/
theorem solve_returns_unique_in_range_root_witness :
    0 < (Parabola.mk (1 : ℝ) (-5/2) 1).disc
    ∧ ((inRange (Parabola.mk (1 : ℝ) (-5/2) 1).root1
          ∧ ¬ inRange (Parabola.mk (1 : ℝ) (-5/2) 1).root2
          ∧ (1/2 : ℝ) = (Parabola.mk (1 : ℝ) (-5/2) 1).root1)
        ∨ (inRange (Parabola.mk (1 : ℝ) (-5/2) 1).root2
          ∧ ¬ inRange (Parabola.mk (1 : ℝ) (-5/2) 1).root1
          ∧ (1/2 : ℝ) = (Parabola.mk (1 : ℝ) (-5/2) 1).root2)) := by
  have hsq : Real.sqrt ((-5/2 : ℝ) * (-5/2) - 4 * 1 * 1) = 3/2 := by
    rw [show ((-5/2 : ℝ) * (-5/2) - 4 * 1 * 1) = (3/2) ^ 2 by norm_num]
    exact Real.sqrt_sq (by norm_num)
  have hsolve : Solve ⟨1, -5/2, 1⟩ = some (1/2) := by
    simp only [Solve]
    rw [if_neg (by norm_num : ¬((1 : ℝ) = 0))]
    rw [if_neg (by norm_num : ¬((-5/2 : ℝ) * (-5/2) - 4 * 1 * 1 ≤ 0))]
    rw [hsq]
    split_ifs with h1 h2 h3
    · exact absurd h1 (by norm_num)
    · exact absurd h1 (by norm_num)
    · norm_num
    · exact absurd h3 (by norm_num)
  exact (solve_returns_unique_in_range_root ⟨1, -5/2, 1⟩ (by norm_num)).1 (1/2) hsolve

end Astro

section SanityChecks

example : Astro.daysFromCivil 2000 1 1 = 10957 := by decide
example : Astro.daysFromCivil 2018 12 2 = 17867 := by decide
example : Astro.daysFromCivil 1700 1 1 - 10957 = -109572 := by decide
example : Astro.daysFromCivil 2200 1 1 - 10957 = 73049 := by decide

example :
    (Astro.MakeTime (K := ℚ) (fun _ => 0) 2018 12 2 18 30 (12543/1000)).ut
      = 6910 + (66600 + 12543/1000) / 86400 - 1/2 := by
  simp only [Astro.MakeTime]
  rw [show Astro.daysFromCivil 2018 12 2 = 17867 by decide]
  norm_num

end SanityChecks
